import Mathlib

/-!
Verification of `llm-chain-openai/src/chatgpt/options.rs`: the `Model`
identity enum, its bidirectional string mapping, and the `PerInvocation`
and `PerExecutor` option records, with their serde-derived JSON
serialization modelled explicitly.
-/

/-- The `Model` enum from `options.rs`: two well-known variants and a
free-form variant carrying an arbitrary model name string. -/
inductive Model where
  | ChatGPT3_5Turbo : Model
  | GPT4 : Model
  | Other : String → Model
  deriving DecidableEq, Repr

/-- `impl Default for Model`: returns `Self::ChatGPT3_5Turbo`. -/
def Model.default : Model := Model.ChatGPT3_5Turbo

/-- `impl ToString for Model`: matches on the variant; the two well-known
variants map to their canonical strings, `Other(model)` to its payload. -/
def Model.to_string : Model → String
  | Model.ChatGPT3_5Turbo => "gpt-3.5-turbo"
  | Model.GPT4 => "gpt-4"
  | Model.Other model => model

/-- `impl From<String> for Model`: matches the input against the two
canonical strings exactly, falling back to `Other(s)`. (`from` is a Lean
keyword, hence the name `fromString`.) -/
def Model.fromString (s : String) : Model :=
  if s = "gpt-3.5-turbo" then Model.ChatGPT3_5Turbo
  else if s = "gpt-4" then Model.GPT4
  else Model.Other s

/-- The `PerInvocation` struct: a single optional `Model` field. -/
structure PerInvocation where
  model : Option Model
  deriving DecidableEq, Repr

/-- `derive(Default)` on `PerInvocation`: the `Option` field defaults to
`None`. -/
def PerInvocation.default : PerInvocation := { model := none }

/-- `PerInvocation::new()`: returns `Self::default()`. -/
def PerInvocation.new : PerInvocation := PerInvocation.default

/-- `PerInvocation::for_model`: consumes `self` and returns a record equal
to it except that `model` is `Some(model)`. -/
def PerInvocation.for_model (self : PerInvocation) (model : Model) : PerInvocation :=
  { self with model := some model }

/-- The `PerExecutor` struct: a single optional `api_key` string field. -/
structure PerExecutor where
  api_key : Option String
  deriving DecidableEq, Repr

/-- `derive(Default)` on `PerExecutor`: the `Option` field defaults to
`None`. -/
def PerExecutor.default : PerExecutor := { api_key := none }

/-- A JSON value, sufficient for the serde-derived encodings of this
module: null, strings, and objects. -/
inductive Json where
  | null : Json
  | str : String → Json
  | obj : List (String × Json) → Json

/-- serde's derived `Serialize` for `Model` (externally tagged enum):
unit variants serialize as their variant-name string, the newtype variant
`Other(s)` as the object with the single field `"Other"` holding `s`. -/
def Model.toJson : Model → Json
  | Model.ChatGPT3_5Turbo => Json.str "ChatGPT3_5Turbo"
  | Model.GPT4 => Json.str "GPT4"
  | Model.Other s => Json.obj [("Other", Json.str s)]

/-- serde's derived `Deserialize` for `Model`: accepts exactly the
externally tagged forms produced by `Model.toJson`. -/
def Model.fromJson : Json → Option Model
  | Json.str t =>
      if t = "ChatGPT3_5Turbo" then some Model.ChatGPT3_5Turbo
      else if t = "GPT4" then some Model.GPT4
      else none
  | Json.obj [(tag, Json.str s)] =>
      if tag = "Other" then some (Model.Other s) else none
  | _ => none

/-- serde's derived `Serialize` for `PerInvocation`: an object with the
one field `model`; an unset `Option` serializes as JSON null. -/
def PerInvocation.toJson (p : PerInvocation) : Json :=
  match p.model with
  | none => Json.obj [("model", Json.null)]
  | some m => Json.obj [("model", Model.toJson m)]

/-- serde's derived `Deserialize` for `PerInvocation`: the `model` field
may be null (yielding `None`) or a serialized `Model`. -/
def PerInvocation.fromJson : Json → Option PerInvocation
  | Json.obj [(key, v)] =>
      if key = "model" then
        match v with
        | Json.null => some { model := none }
        | j =>
            match Model.fromJson j with
            | some m => some { model := some m }
            | none => none
      else none
  | _ => none

/-- serde's derived `Serialize` for `PerExecutor`: an object with the one
field `api_key`; an unset `Option` serializes as JSON null. -/
def PerExecutor.toJson (e : PerExecutor) : Json :=
  match e.api_key with
  | none => Json.obj [("api_key", Json.null)]
  | some k => Json.obj [("api_key", Json.str k)]

/-- serde's derived `Deserialize` for `PerExecutor`: the `api_key` field
may be null (yielding `None`) or a string. -/
def PerExecutor.fromJson : Json → Option PerExecutor
  | Json.obj [(key, v)] =>
      if key = "api_key" then
        match v with
        | Json.null => some { api_key := none }
        | Json.str k => some { api_key := some k }
        | _ => none
      else none
  | _ => none

/-- C1: `to_string` is total and maps `ChatGPT3_5Turbo` to
`"gpt-3.5-turbo"`, `GPT4` to `"gpt-4"`, and `Other s` to exactly `s`. -/
theorem model_to_string_spec :
    Model.to_string Model.ChatGPT3_5Turbo = "gpt-3.5-turbo" ∧
    Model.to_string Model.GPT4 = "gpt-4" ∧
    ∀ s : String, Model.to_string (Model.Other s) = s := by
  refine ⟨rfl, rfl, fun s => rfl⟩

/-- C2: `fromString` is total, maps exactly `"gpt-3.5-turbo"` to
`ChatGPT3_5Turbo`, exactly `"gpt-4"` to `GPT4`, and any other string `s`
to `Other s`; matching is exact-string. -/
theorem model_fromString_spec :
    Model.fromString "gpt-3.5-turbo" = Model.ChatGPT3_5Turbo ∧
    Model.fromString "gpt-4" = Model.GPT4 ∧
    ∀ s : String, s ≠ "gpt-3.5-turbo" → s ≠ "gpt-4" →
      Model.fromString s = Model.Other s := by
  refine ⟨rfl, rfl, fun s h1 h2 => ?_⟩
  simp [Model.fromString, h1, h2]

/-- Witness for C2: the non-canonical string `"GPT-4"` (case differs)
maps to the free-form variant, confirming exact-string matching. -/
theorem model_fromString_spec_witness :
    Model.fromString "GPT-4" = Model.Other "GPT-4" :=
  model_fromString_spec.2.2 "GPT-4" (by decide) (by decide)

/-- C3: round-trip identity on the two well-known variants. -/
theorem model_roundtrip_wellknown :
    Model.fromString (Model.to_string Model.ChatGPT3_5Turbo) = Model.ChatGPT3_5Turbo ∧
    Model.fromString (Model.to_string Model.GPT4) = Model.GPT4 := by
  exact ⟨rfl, rfl⟩

/-- C4: for every string `s` distinct from both canonical strings,
`fromString s = Other s` and `to_string (fromString s) = s`. -/
theorem model_roundtrip_noncanonical (s : String)
    (h1 : s ≠ "gpt-3.5-turbo") (h2 : s ≠ "gpt-4") :
    Model.fromString s = Model.Other s ∧
    Model.to_string (Model.fromString s) = s := by
  constructor
  · simp [Model.fromString, h1, h2]
  · simp [Model.fromString, h1, h2, Model.to_string]

/-- Witness for C4: instantiated at the concrete string `"claude-3"`. -/
theorem model_roundtrip_noncanonical_witness :
    Model.fromString "claude-3" = Model.Other "claude-3" ∧
    Model.to_string (Model.fromString "claude-3") = "claude-3" :=
  model_roundtrip_noncanonical "claude-3" (by decide) (by decide)

/-- C5: the default `Model` is `ChatGPT3_5Turbo`, which also equals
`fromString "gpt-3.5-turbo"`. -/
theorem model_default_spec :
    Model.default = Model.ChatGPT3_5Turbo ∧
    Model.default = Model.fromString "gpt-3.5-turbo" := by
  exact ⟨rfl, rfl⟩

/-- C6: `PerInvocation.new` has `model = none`, and `for_model` returns a
record identical to the receiver except that `model` is `some X` — since
`model` is the only field, the result is exactly `{ model := some X }`. -/
theorem perInvocation_builder_spec :
    PerInvocation.new.model = none ∧
    ∀ (p : PerInvocation) (X : Model),
      PerInvocation.for_model p X = { model := some X } := by
  exact ⟨rfl, fun p X => rfl⟩

/-- C7: JSON round-trip for both option records, in both the populated
and the empty field state, and `PerExecutor.default` serializes to the
object with the single field `api_key` holding null. -/
theorem options_serialization_roundtrip :
    (∀ p : PerInvocation, PerInvocation.fromJson (PerInvocation.toJson p) = some p) ∧
    (∀ e : PerExecutor, PerExecutor.fromJson (PerExecutor.toJson e) = some e) ∧
    PerExecutor.toJson PerExecutor.default = Json.obj [("api_key", Json.null)] := by
  refine ⟨fun p => ?_, fun e => ?_, rfl⟩
  · rcases p with ⟨_ | m⟩
    · rfl
    · cases m <;> rfl
  · rcases e with ⟨_ | k⟩ <;> rfl

/-- C8: applying the builder step always yields a record whose `model`
field is `some _`; the fresh record from `new()` is the one with
`model = none`. -/
theorem perInvocation_model_set_invariant :
    (∀ (p : PerInvocation) (m : Model),
      ∃ y, (PerInvocation.for_model p m).model = some y) ∧
    PerInvocation.new.model = none := by
  exact ⟨fun p m => ⟨m, rfl⟩, rfl⟩

/-- C9: `fromString (to_string m) = m` holds exactly when `m` is not one
of the free-form values `Other "gpt-3.5-turbo"` and `Other "gpt-4"`; in
particular the text round-trip collapses `Other "gpt-4"` to `GPT4`. -/
theorem model_roundtrip_collision :
    (∀ m : Model, Model.fromString (Model.to_string m) = m ↔
      (m ≠ Model.Other "gpt-3.5-turbo" ∧ m ≠ Model.Other "gpt-4")) ∧
    Model.fromString (Model.to_string (Model.Other "gpt-4")) = Model.GPT4 ∧
    Model.GPT4 ≠ Model.Other "gpt-4" := by
  refine ⟨fun m => ?_, rfl, by decide⟩
  cases m with
  | ChatGPT3_5Turbo => simp [Model.to_string, Model.fromString]
  | GPT4 => simp [Model.to_string, Model.fromString]
  | Other s =>
      by_cases h1 : s = "gpt-3.5-turbo"
      · subst h1; simp [Model.to_string, Model.fromString]
      · by_cases h2 : s = "gpt-4"
        · subst h2; simp [Model.to_string, Model.fromString]
        · simp [Model.to_string, Model.fromString, h1, h2]

/-- C10: the builder step overwrites unconditionally — applying
`for_model` twice leaves the second model. -/
theorem perInvocation_last_write_wins :
    ∀ (p : PerInvocation) (a b : Model),
      ((PerInvocation.for_model (PerInvocation.for_model p a) b)).model = some b := by
  exact fun p a b => rfl
